import Mathlib

/-
Verification of the flappy2 game engine (src/lib/game/engine.ts, first
engine variant) and the score persistence endpoint
(src/app/api/scores/route.ts) against its design specification.

The engine's numeric values are embedded as rationals (JS numbers used
here stay within exact decimal arithmetic for every property proved),
wall-clock time (`Date.now()`) is passed explicitly as a `now` argument,
and the `Math.random()` draws consumed by the pipe spawner are passed as
explicit parameters in `[0, 1)`.  The two host callbacks `onScoreChange`
and `onGameOver` are modelled as an emitted event list.
-/

namespace Flappy2

inductive GameMode
  | original
  | modified
  | obstacles
deriving DecidableEq, Repr

inductive PowerUpType
  | shield
  | slowmo
  | double
deriving DecidableEq, Repr

structure PowerUp where
  type : PowerUpType
  x : ℚ
  y : ℚ
  width : ℚ
  height : ℚ
  collected : Bool
deriving DecidableEq, Repr

structure ActivePowerUp where
  type : PowerUpType
  endTime : ℚ
deriving DecidableEq, Repr

structure Pipe where
  x : ℚ
  topHeight : ℚ
  bottomY : ℚ
  width : ℚ
  passed : Bool
  powerUp : Option PowerUp := none
deriving DecidableEq, Repr

structure Bird where
  x : ℚ
  y : ℚ
  width : ℚ
  height : ℚ
  velocity : ℚ
  rotation : ℚ
deriving DecidableEq, Repr

structure GameState where
  bird : Bird
  pipes : List Pipe
  score : ℕ
  highScore : ℕ
  gameOver : Bool
  isPlaying : Bool
  frameCount : ℕ
  gameMode : GameMode
  activePowerUps : List ActivePowerUp
  hasShield : Bool
deriving DecidableEq, Repr

structure GameConfig where
  canvasWidth : ℚ
  canvasHeight : ℚ
  gravity : ℚ
  flapStrength : ℚ
  pipeSpeed : ℚ
  pipeGap : ℚ
  pipeWidth : ℚ
  pipeSpawnInterval : ℕ
  groundHeight : ℚ
deriving DecidableEq, Repr

def DEFAULT_CONFIG : GameConfig :=
  { canvasWidth := 400
    canvasHeight := 600
    gravity := 1/2
    flapStrength := -9
    pipeSpeed := 3
    pipeGap := 150
    pipeWidth := 60
    pipeSpawnInterval := 90
    groundHeight := 80 }

structure BirdConfig where
  width : ℚ
  height : ℚ
  x : ℚ
  startY : ℚ
deriving DecidableEq, Repr

def BIRD_CONFIG : BirdConfig :=
  { width := 34, height := 24, x := 80, startY := 250 }

/-- An invocation of one of the two host callbacks, in invocation order. -/
inductive GameEvent
  | scoreChange (score : ℕ)
  | gameOverSignal (score : ℕ)
deriving DecidableEq, Repr

/-- `createInitialState` from engine.ts. -/
def createInitialState (gameMode : GameMode) : GameState :=
  { bird :=
      { x := BIRD_CONFIG.x
        y := BIRD_CONFIG.startY
        width := BIRD_CONFIG.width
        height := BIRD_CONFIG.height
        velocity := 0
        rotation := 0 }
    pipes := []
    score := 0
    highScore := 0
    gameOver := false
    isPlaying := false
    frameCount := 0
    gameMode := gameMode
    activePowerUps := []
    hasShield := false }

/-- `reset` from engine.ts (the animation-frame cancellation and the final
render call touch no `GameState` field and are omitted). -/
def reset (s : GameState) : GameState :=
  let highScore := max s.highScore s.score
  { createInitialState s.gameMode with highScore := highScore }

/-- `handleCollision` from engine.ts.  Returns the new state together with
the list of callback invocations it performs. -/
def handleCollision (s : GameState) : GameState × List GameEvent :=
  if s.hasShield then
    ({ s with hasShield := false }, [])
  else
    ({ s with
        gameOver := true
        isPlaying := false
        highScore := max s.highScore s.score },
     [GameEvent.gameOverSignal s.score])

/-- `getScoreMultiplier` from engine.ts, factored over the power-up list
(the method reads `this.state.activePowerUps`). -/
def scoreMultiplierOfList (aps : List ActivePowerUp) : ℕ :=
  if aps.any (fun p => decide (p.type = PowerUpType.double)) then 2 else 1

def getScoreMultiplier (s : GameState) : ℕ :=
  scoreMultiplierOfList s.activePowerUps

/-- The loop body of `checkScore` from engine.ts: walks the pipe list in
order, threading the score and firing the score-changed callback with the
updated score at each newly passed pipe. -/
def checkScoreAux (birdX : ℚ) (aps : List ActivePowerUp) :
    List Pipe → ℕ → List Pipe × ℕ × List GameEvent
  | [], score => ([], score, [])
  | pipe :: rest, score =>
    if pipe.passed = false ∧ pipe.x + pipe.width < birdX then
      let points := 1 * scoreMultiplierOfList aps
      let score1 := score + points
      let r := checkScoreAux birdX aps rest score1
      ({ pipe with passed := true } :: r.1, r.2.1,
        GameEvent.scoreChange score1 :: r.2.2)
    else
      let r := checkScoreAux birdX aps rest score
      (pipe :: r.1, r.2.1, r.2.2)

/-- `checkScore` from engine.ts. -/
def checkScore (s : GameState) : GameState × List GameEvent :=
  let r := checkScoreAux s.bird.x s.activePowerUps s.pipes s.score
  ({ s with pipes := r.1, score := r.2.1 }, r.2.2)

/-- Specification-level description of what happens to a single pipe at
the score check. -/
def passPipe (birdX : ℚ) (p : Pipe) : Pipe :=
  if p.passed = false ∧ p.x + p.width < birdX then { p with passed := true } else p

/-- Number of pipes that get passed at this score check. -/
def newlyPassedCount (birdX : ℚ) (ps : List Pipe) : ℕ :=
  ps.countP (fun p => decide (p.passed = false ∧ p.x + p.width < birdX))

/-- The expected score-changed callback sequence: one event per newly
passed pipe, carrying the running score, which grows by `mult` each time. -/
def scoreEvents (score mult : ℕ) : ℕ → List GameEvent
  | 0 => []
  | n + 1 => GameEvent.scoreChange (score + mult) :: scoreEvents (score + mult) mult n

/-- `getSpeedModifier` from engine.ts. -/
def getSpeedModifier (s : GameState) : ℚ :=
  if s.activePowerUps.any (fun p => decide (p.type = PowerUpType.slowmo)) then 1/2 else 1

/-- `updateBird` from engine.ts: gravity, position, rotation, then ground
clamp (with collision handling) and ceiling clamp, in source order. -/
def updateBird (cfg : GameConfig) (speedMod : ℚ) (s : GameState) :
    GameState × List GameEvent :=
  let v1 := s.bird.velocity + cfg.gravity * speedMod
  let y1 := s.bird.y + v1 * speedMod
  let rot := min (max (v1 * 3) (-30)) 90
  let bird1 : Bird := { s.bird with velocity := v1, y := y1, rotation := rot }
  let groundY := cfg.canvasHeight - cfg.groundHeight
  let r :=
    if y1 + s.bird.height > groundY then
      handleCollision { s with bird := { bird1 with y := groundY - s.bird.height } }
    else ({ s with bird := bird1 }, [])
  if r.1.bird.y < 0 then
    ({ r.1 with bird := { r.1.bird with y := 0, velocity := 0 } }, r.2)
  else r

/-- `collectPowerUp` from engine.ts: marks the power-up collected; shield
sets `hasShield` immediately, slowmo/double replace any same-type entry
and append one with expiry `now + 5000`. -/
def collectPowerUp (now : ℚ) (pu : PowerUp) (s : GameState) : PowerUp × GameState :=
  let pu1 := { pu with collected := true }
  let duration : ℚ := if pu.type = PowerUpType.shield then 0 else 5000
  if pu.type = PowerUpType.shield then
    (pu1, { s with hasShield := true })
  else
    (pu1, { s with activePowerUps :=
      (s.activePowerUps.filter (fun p => decide (p.type ≠ pu.type))) ++
        [{ type := pu.type, endTime := now + duration }] })

/-- `updatePowerUps` from engine.ts: drop expired entries. -/
def updatePowerUps (now : ℚ) (s : GameState) : GameState :=
  { s with activePowerUps := s.activePowerUps.filter (fun p => decide (p.endTime > now)) }

/-- The active power-up list invariant: no timed shield entry, and at most
one entry per type. -/
def powerUpsOK (l : List ActivePowerUp) : Prop :=
  (∀ p ∈ l, p.type ≠ PowerUpType.shield) ∧
  List.Pairwise (fun a b => a.type ≠ b.type) l

/-- The pipe built by `spawnPipe` in engine.ts, with the three
`Math.random()` draws it may consume passed explicitly: `r` for the gap
top position, `rPow` for the 30% power-up roll, `rType` for the uniform
type choice (the source indexes `powerUpTypes` with
`Math.floor(rType * 3)`, in range for every `rType` in `[0,1)`). -/
def spawnedPipe (cfg : GameConfig) (gameMode : GameMode) (r rPow rType : ℚ) : Pipe :=
  let minHeight : ℚ := 50
  let maxHeight : ℚ := cfg.canvasHeight - cfg.groundHeight - cfg.pipeGap - minHeight
  let topHeight : ℚ := r * (maxHeight - minHeight) + minHeight
  let powerUpTypes : List PowerUpType :=
    [PowerUpType.shield, PowerUpType.slowmo, PowerUpType.double]
  { x := cfg.canvasWidth
    topHeight := topHeight
    bottomY := topHeight + cfg.pipeGap
    width := cfg.pipeWidth
    passed := false
    powerUp :=
      if gameMode = GameMode.modified ∧ rPow < 3/10 then
        some
          { type := powerUpTypes.getD (⌊rType * 3⌋).toNat PowerUpType.shield
            x := cfg.canvasWidth + cfg.pipeWidth + 20
            y := topHeight + cfg.pipeGap / 2 - 15
            width := 30
            height := 30
            collected := false }
      else none }

/-- `spawnPipe` from engine.ts appends the new pipe to the state. -/
def spawnPipe (cfg : GameConfig) (r rPow rType : ℚ) (s : GameState) : GameState :=
  { s with pipes := s.pipes ++ [spawnedPipe cfg s.gameMode r rPow rType] }

/-- `checkPowerUpCollision` from engine.ts: overlap test between the full
bird rectangle and the power-up square. -/
def checkPowerUpCollision (bird : Bird) (powerUp : PowerUp) : Bool :=
  decide (bird.x < powerUp.x + powerUp.width ∧
    bird.x + bird.width > powerUp.x ∧
    bird.y < powerUp.y + powerUp.height ∧
    bird.y + bird.height > powerUp.y)

/-- The two pipe-rectangle tests of `checkCollisions` in engine.ts against
the 4px-deflated bird box, combined as one disjunction (the source runs
them as two consecutive ifs with the same effect). -/
def pipeCollision (bird : Bird) (pipe : Pipe) : Bool :=
  decide ((bird.x + 4 < pipe.x + pipe.width ∧
      bird.x + 4 + (bird.width - 8) > pipe.x ∧
      bird.y + 4 < pipe.topHeight) ∨
    (bird.x + 4 < pipe.x + pipe.width ∧
      bird.x + 4 + (bird.width - 8) > pipe.x ∧
      bird.y + 4 + (bird.height - 8) > pipe.bottomY))

/-- The pipe loop of `checkCollisions` from engine.ts: per pipe, first the
power-up pickup, then the pipe-rectangle tests; a pipe hit invokes the
collision handler and exits the loop, leaving the remaining pipes
untouched. -/
def checkCollisionsAux (now : ℚ) (bird : Bird) :
    List Pipe → GameState → List Pipe × GameState × List GameEvent
  | [], s => ([], s, [])
  | pipe :: rest, s =>
    let pr :=
      match pipe.powerUp with
      | some pu =>
        if pu.collected = false ∧ checkPowerUpCollision bird pu = true then
          let c := collectPowerUp now pu s
          ({ pipe with powerUp := some c.1 }, c.2)
        else (pipe, s)
      | none => (pipe, s)
    if pipeCollision bird pr.1 = true then
      let r := handleCollision pr.2
      (pr.1 :: rest, r.1, r.2)
    else
      let r := checkCollisionsAux now bird rest pr.2
      (pr.1 :: r.1, r.2.1, r.2.2)

/-- `checkCollisions` from engine.ts. -/
def checkCollisions (now : ℚ) (s : GameState) : GameState × List GameEvent :=
  let r := checkCollisionsAux now s.bird s.pipes s
  ({ r.2.1 with pipes := r.1 }, r.2.2)

/-- `updatePipes` from engine.ts: scroll pipes left, reposition an
uncollected power-up next to its pipe, drop pipes past the left margin. -/
def updatePipes (cfg : GameConfig) (speedMod : ℚ) (s : GameState) : GameState :=
  let speed := cfg.pipeSpeed * speedMod
  let movePipe := fun (pipe : Pipe) =>
    let moved := { pipe with x := pipe.x - speed }
    match moved.powerUp with
    | some pu =>
      if pu.collected = false then
        { moved with powerUp := some { pu with x := moved.x + cfg.pipeWidth + 20 } }
      else moved
    | none => moved
  { s with pipes :=
      (s.pipes.map movePipe).filter (fun pipe => decide (pipe.x + pipe.width > -50)) }

/-- `update` from engine.ts: the per-tick pipeline in source order, with
`now` the wall clock and `r`, `rPow`, `rType` the random draws a spawn on
this tick would consume. -/
def update (cfg : GameConfig) (now r rPow rType : ℚ) (s : GameState) :
    GameState × List GameEvent :=
  if s.isPlaying = false ∨ s.gameOver = true then (s, [])
  else
    let s1 := { s with frameCount := s.frameCount + 1 }
    let s2 := updatePowerUps now s1
    let speedMod := getSpeedModifier s2
    let rb := updateBird cfg speedMod s2
    let s3 := updatePipes cfg speedMod rb.1
    let s4 :=
      if s3.frameCount % cfg.pipeSpawnInterval = 0 then spawnPipe cfg r rPow rType s3
      else s3
    let rc := checkCollisions now s4
    let rs := checkScore rc.1
    (rs.1, rb.2 ++ rc.2 ++ rs.2)

/-- The re-arming condition of `gameLoop` in engine.ts: the loop requests
the next animation frame iff the game is not over. -/
def gameLoopReschedules (s : GameState) : Bool :=
  !s.gameOver

/-- `n` consecutive loop ticks, each fed its own wall clock and random
draws. -/
def updateIter (cfg : GameConfig) (env : ℕ → ℚ × ℚ × ℚ × ℚ) :
    ℕ → GameState → GameState
  | 0, s => s
  | n + 1, s =>
    let e := env n
    updateIter cfg env n (update cfg e.1 e.2.1 e.2.2.1 e.2.2.2 s).1

/-- Axis-aligned rectangle, for phrasing the collision geometry. -/
structure Rect where
  x : ℚ
  y : ℚ
  width : ℚ
  height : ℚ
deriving DecidableEq, Repr

/-- Strict AABB overlap of two rectangles. -/
def rectsOverlap (a b : Rect) : Prop :=
  a.x < b.x + b.width ∧ a.x + a.width > b.x ∧
  a.y < b.y + b.height ∧ a.y + a.height > b.y

/-- A point lying inside a rectangle. -/
def pointInRect (px py : ℚ) (rect : Rect) : Prop :=
  rect.x ≤ px ∧ px ≤ rect.x + rect.width ∧
  rect.y ≤ py ∧ py ≤ rect.y + rect.height

def birdRect (bird : Bird) : Rect :=
  { x := bird.x, y := bird.y, width := bird.width, height := bird.height }

/-- The bird hitbox used against pipes: deflated by 4px on each side. -/
def birdHitbox (bird : Bird) : Rect :=
  { x := bird.x + 4, y := bird.y + 4, width := bird.width - 8, height := bird.height - 8 }

def powerUpRect (pu : PowerUp) : Rect :=
  { x := pu.x, y := pu.y, width := pu.width, height := pu.height }

def topPipeRect (pipe : Pipe) : Rect :=
  { x := pipe.x, y := 0, width := pipe.width, height := pipe.topHeight }

def bottomPipeRect (cfg : GameConfig) (pipe : Pipe) : Rect :=
  { x := pipe.x, y := pipe.bottomY, width := pipe.width,
    height := cfg.canvasHeight - pipe.bottomY - cfg.groundHeight }

/-- The concrete pre-tick state for C10: pipe A (x=10) will cross behind
the bird this tick, pipe B (x=80) will collide with the bird. -/
def preTickState : GameState :=
  { createInitialState GameMode.original with
      isPlaying := true
      frameCount := 5
      pipes :=
        [{ x := 10, topHeight := 100, bottomY := 250, width := 60, passed := false },
         { x := 80, topHeight := 300, bottomY := 450, width := 60, passed := false }] }

/-
Score persistence endpoint, POST of src/app/api/scores/route.ts.

The body comes from `request.json()`, i.e. JSON.parse, whose numbers are
finite doubles except that overflowing literals parse to the infinities;
NaN is not producible, so a parsed score is a finite value or ±Infinity.
Strings are embedded as `List Char` (JS `.slice(0, 20)` is
`List.take 20`, JS `.trim()` strips whitespace from both ends) so that
the endpoint is executable.  The database itself is an external
collaborator: a validated request becomes `accept` carrying the record
that is inserted and echoed back; the 503/500 paths for a missing or
failing database are not modelled.  A truthy non-string `player_name`
makes `.slice` throw, which the route's catch turns into a 500; JSON
arrays and objects are outside the model.
-/

inductive JSNumber
  | posInf
  | negInf
  | finite (q : ℚ)
deriving DecidableEq, Repr

/-- JS `<` on the parseable numbers. -/
def jsLt : JSNumber → JSNumber → Bool
  | JSNumber.negInf, JSNumber.negInf => false
  | JSNumber.negInf, _ => true
  | _, JSNumber.negInf => false
  | JSNumber.posInf, _ => false
  | JSNumber.finite _, JSNumber.posInf => true
  | JSNumber.finite a, JSNumber.finite b => decide (a < b)

inductive JVal
  | num (n : JSNumber)
  | str (s : List Char)
  | boolean (b : Bool)
  | jnull
  | missing
deriving DecidableEq, Repr

structure ScoreRequest where
  player_name : JVal
  score : JVal
  game_mode : JVal
deriving DecidableEq, Repr

structure ScoreRecord where
  player_name : List Char
  score : JSNumber
  game_mode : List Char
deriving DecidableEq, Repr

inductive PostResult
  | reject (status : ℕ) (error : String)
  | accept (record : ScoreRecord)
deriving DecidableEq, Repr

/-- JS falsiness for the primitive JSON values modelled here. -/
def isFalsy : JVal → Bool
  | JVal.num (JSNumber.finite q) => decide (q = 0)
  | JVal.num _ => false
  | JVal.str s => decide (s = [])
  | JVal.boolean b => !b
  | JVal.jnull => true
  | JVal.missing => true

/-- JS `String.prototype.trim`: strip whitespace from both ends. -/
def jsTrim (l : List Char) : List Char :=
  ((l.dropWhile Char.isWhitespace).reverse.dropWhile Char.isWhitespace).reverse

def anonymous : List Char := "Anonymous".toList

def validModes : List (List Char) :=
  ["original".toList, "modified".toList, "obstacles".toList]

/-- `(player_name || 'Anonymous').slice(0, 20).trim() || 'Anonymous'`;
`none` is the thrown TypeError for a truthy non-string. -/
def nameOf (pn : JVal) : Option (List Char) :=
  let base : Option (List Char) :=
    if isFalsy pn then some anonymous
    else
      match pn with
      | JVal.str s => some s
      | _ => none
  match base with
  | some b =>
    let t := jsTrim (b.take 20)
    some (if t = [] then anonymous else t)
  | none => none

/-- The POST handler's validation and insert payload. -/
def postScores (req : ScoreRequest) : PostResult :=
  match req.score with
  | JVal.num n =>
    if jsLt n (JSNumber.finite 0) || jsLt (JSNumber.finite 9999) n then
      PostResult.reject 400 "Invalid score"
    else
      match req.game_mode with
      | JVal.str mode =>
        if mode ∈ validModes then
          match nameOf req.player_name with
          | some name =>
            PostResult.accept { player_name := name, score := n, game_mode := mode }
          | none => PostResult.reject 500 "Internal server error"
        else PostResult.reject 400 "Invalid game mode"
      | _ => PostResult.reject 400 "Invalid game mode"
  | _ => PostResult.reject 400 "Invalid score"

/-- C1: with `hasShield = true` the collision handler only clears the
shield, leaving `gameOver`, `isPlaying`, `score` and `highScore` unchanged
and invoking no callback, and a second collision on the resulting state
ends the game; with `hasShield = false` it sets `gameOver`, clears
`isPlaying`, raises `highScore` to `max highScore score`, and invokes the
game-over callback with the current score. -/
theorem handleCollision_shield_absorbs_one_hit (s : GameState) :
    (s.hasShield = true →
      handleCollision s = ({ s with hasShield := false }, []) ∧
      (handleCollision (handleCollision s).1).1.gameOver = true ∧
      (handleCollision (handleCollision s).1).1.isPlaying = false) ∧
    (s.hasShield = false →
      handleCollision s =
        ({ s with
            gameOver := true
            isPlaying := false
            highScore := max s.highScore s.score },
         [GameEvent.gameOverSignal s.score])) := by
  constructor
  · intro h
    refine ⟨by simp [handleCollision, h], ?_, ?_⟩ <;>
      simp [handleCollision, h]
  · intro h
    simp [handleCollision, h]

theorem handleCollision_shield_absorbs_one_hit_witness :
    (handleCollision
        { createInitialState GameMode.original with hasShield := true } =
      ({ createInitialState GameMode.original with hasShield := false }, [])) ∧
    (handleCollision (createInitialState GameMode.original) =
      ({ createInitialState GameMode.original with
          gameOver := true
          isPlaying := false
          highScore := 0 },
       [GameEvent.gameOverSignal 0])) := by
  constructor
  · exact ((handleCollision_shield_absorbs_one_hit
      { createInitialState GameMode.original with hasShield := true }).1 rfl).1
  · have h := (handleCollision_shield_absorbs_one_hit
      (createInitialState GameMode.original)).2 rfl
    simpa using h

theorem checkScoreAux_eq (birdX : ℚ) (aps : List ActivePowerUp) :
    ∀ (ps : List Pipe) (score : ℕ),
      checkScoreAux birdX aps ps score =
        (ps.map (passPipe birdX),
         score + newlyPassedCount birdX ps * scoreMultiplierOfList aps,
         scoreEvents score (scoreMultiplierOfList aps) (newlyPassedCount birdX ps)) := by
  intro ps
  induction ps with
  | nil => intro score; simp [checkScoreAux, newlyPassedCount, scoreEvents]
  | cons pipe rest ih =>
    intro score
    by_cases hc : pipe.passed = false ∧ pipe.x + pipe.width < birdX
    · have hcount : newlyPassedCount birdX (pipe :: rest) =
          newlyPassedCount birdX rest + 1 := by
        simp [newlyPassedCount, List.countP_cons, hc]
      have hpass : passPipe birdX pipe = { pipe with passed := true } := by
        simp [passPipe, hc]
      have hstep : checkScoreAux birdX aps (pipe :: rest) score =
          ({ pipe with passed := true } ::
              (checkScoreAux birdX aps rest (score + 1 * scoreMultiplierOfList aps)).1,
            (checkScoreAux birdX aps rest (score + 1 * scoreMultiplierOfList aps)).2.1,
            GameEvent.scoreChange (score + 1 * scoreMultiplierOfList aps) ::
              (checkScoreAux birdX aps rest (score + 1 * scoreMultiplierOfList aps)).2.2) := by
        simp [checkScoreAux, hc]
      have harith : score + scoreMultiplierOfList aps +
          newlyPassedCount birdX rest * scoreMultiplierOfList aps =
          score + (newlyPassedCount birdX rest + 1) * scoreMultiplierOfList aps := by
        ring
      rw [hstep, ih, hcount, List.map_cons, hpass]
      simp only [one_mul, scoreEvents]
      rw [harith]
    · have hcount : newlyPassedCount birdX (pipe :: rest) =
          newlyPassedCount birdX rest := by
        simp [newlyPassedCount, List.countP_cons, hc]
      have hpass : passPipe birdX pipe = pipe := by
        simp [passPipe, hc]
      have hstep : checkScoreAux birdX aps (pipe :: rest) score =
          (pipe :: (checkScoreAux birdX aps rest score).1,
            (checkScoreAux birdX aps rest score).2.1,
            (checkScoreAux birdX aps rest score).2.2) := by
        simp [checkScoreAux, hc]
      rw [hstep, ih, hcount, List.map_cons, hpass]

/-- C2: the score check sets `passed` on exactly the pipes that are not
yet passed and whose right edge is strictly left of the bird, awards
`1 * scoreMultiplier` points per such pipe (2 with an active `double`
entry, else 1), and fires the score-changed callback with the running
score once per such pipe; a pipe with `passed = true` is left untouched,
so each pipe scores exactly once. -/
theorem checkScore_each_pipe_scores_once (s : GameState) :
    (checkScore s =
      ({ s with
          pipes := s.pipes.map (passPipe s.bird.x)
          score := s.score +
            newlyPassedCount s.bird.x s.pipes * getScoreMultiplier s },
       scoreEvents s.score (getScoreMultiplier s)
         (newlyPassedCount s.bird.x s.pipes))) ∧
    (∀ p : Pipe, p.passed = true → passPipe s.bird.x p = p) := by
  constructor
  · unfold checkScore
    rw [checkScoreAux_eq]
    rfl
  · intro p hp
    simp [passPipe, hp]

theorem checkScore_each_pipe_scores_once_witness :
    (checkScore
        { createInitialState GameMode.original with
            pipes :=
              [{ x := 0, topHeight := 100, bottomY := 250, width := 10, passed := false },
               { x := 0, topHeight := 100, bottomY := 250, width := 10, passed := true }] } =
      ({ createInitialState GameMode.original with
          pipes :=
            [{ x := 0, topHeight := 100, bottomY := 250, width := 10, passed := true },
             { x := 0, topHeight := 100, bottomY := 250, width := 10, passed := true }]
          score := 1 },
       [GameEvent.scoreChange 1])) ∧
    passPipe 80 { x := 0, topHeight := 100, bottomY := 250, width := 10, passed := true } =
      { x := 0, topHeight := 100, bottomY := 250, width := 10, passed := true } := by
  constructor
  · have h := (checkScore_each_pipe_scores_once
      { createInitialState GameMode.original with
          pipes :=
            [{ x := 0, topHeight := 100, bottomY := 250, width := 10, passed := false },
             { x := 0, topHeight := 100, bottomY := 250, width := 10, passed := true }] }).1
    rw [h]
    norm_num [createInitialState, BIRD_CONFIG, passPipe, newlyPassedCount,
      getScoreMultiplier, scoreMultiplierOfList, scoreEvents, List.countP_cons]
  · exact (checkScore_each_pipe_scores_once
      (createInitialState GameMode.original)).2
      { x := 0, topHeight := 100, bottomY := 250, width := 10, passed := true } rfl

/-- C4: `reset` carries `highScore = max highScore score` forward,
preserves the game mode, and reinitializes every other field. -/
theorem reset_carries_high_score (s : GameState) :
    reset s =
      { bird :=
          { x := 80, y := 250, width := 34, height := 24
            velocity := 0, rotation := 0 }
        pipes := []
        score := 0
        highScore := max s.highScore s.score
        gameOver := false
        isPlaying := false
        frameCount := 0
        gameMode := s.gameMode
        activePowerUps := []
        hasShield := false } := rfl

theorem handleCollision_fst_bird (s : GameState) :
    (handleCollision s).1.bird = s.bird := by
  unfold handleCollision
  split <;> rfl

theorem updateBird_eq_ground (cfg : GameConfig) (speedMod : ℚ) (s : GameState)
    (h : s.bird.height ≤ cfg.canvasHeight - cfg.groundHeight)
    (hg : s.bird.y + (s.bird.velocity + cfg.gravity * speedMod) * speedMod + s.bird.height >
      cfg.canvasHeight - cfg.groundHeight) :
    updateBird cfg speedMod s =
      handleCollision { s with bird :=
        { s.bird with
            velocity := s.bird.velocity + cfg.gravity * speedMod
            y := cfg.canvasHeight - cfg.groundHeight - s.bird.height
            rotation :=
              min (max ((s.bird.velocity + cfg.gravity * speedMod) * 3) (-30)) 90 } } := by
  simp only [updateBird]
  rw [if_pos hg]
  split
  · rename_i hceil
    exfalso
    rw [handleCollision_fst_bird] at hceil
    simp only at hceil
    linarith
  · rfl

theorem updateBird_eq_ceiling (cfg : GameConfig) (speedMod : ℚ) (s : GameState)
    (hg : ¬(s.bird.y + (s.bird.velocity + cfg.gravity * speedMod) * speedMod + s.bird.height >
      cfg.canvasHeight - cfg.groundHeight))
    (hc : s.bird.y + (s.bird.velocity + cfg.gravity * speedMod) * speedMod < 0) :
    updateBird cfg speedMod s =
      ({ s with bird :=
        { s.bird with
            velocity := 0
            y := 0
            rotation :=
              min (max ((s.bird.velocity + cfg.gravity * speedMod) * 3) (-30)) 90 } }, []) := by
  simp only [updateBird]
  rw [if_neg hg]
  split
  · rfl
  · rename_i hceil
    exact absurd hc hceil

theorem updateBird_eq_plain (cfg : GameConfig) (speedMod : ℚ) (s : GameState)
    (hg : ¬(s.bird.y + (s.bird.velocity + cfg.gravity * speedMod) * speedMod + s.bird.height >
      cfg.canvasHeight - cfg.groundHeight))
    (hc : ¬(s.bird.y + (s.bird.velocity + cfg.gravity * speedMod) * speedMod < 0)) :
    updateBird cfg speedMod s =
      ({ s with bird :=
        { s.bird with
            velocity := s.bird.velocity + cfg.gravity * speedMod
            y := s.bird.y + (s.bird.velocity + cfg.gravity * speedMod) * speedMod
            rotation :=
              min (max ((s.bird.velocity + cfg.gravity * speedMod) * 3) (-30)) 90 } }, []) := by
  simp only [updateBird]
  rw [if_neg hg]
  split
  · rename_i hceil
    exact absurd hceil hc
  · rfl

/-- C3: whenever the bird fits under the ground line, its y position
after the physics update lies in `[0, groundY − height]`; ground contact
clamps y to `groundY − height` and hands the state to the collision
handler, ceiling contact clamps y to 0 and zeroes the velocity. -/
theorem updateBird_y_within_bounds (cfg : GameConfig) (speedMod : ℚ) (s : GameState)
    (h : s.bird.height ≤ cfg.canvasHeight - cfg.groundHeight) :
    0 ≤ (updateBird cfg speedMod s).1.bird.y ∧
    (updateBird cfg speedMod s).1.bird.y ≤
      cfg.canvasHeight - cfg.groundHeight - s.bird.height ∧
    (s.bird.y + (s.bird.velocity + cfg.gravity * speedMod) * speedMod + s.bird.height >
        cfg.canvasHeight - cfg.groundHeight →
      updateBird cfg speedMod s =
        handleCollision { s with bird :=
          { s.bird with
              velocity := s.bird.velocity + cfg.gravity * speedMod
              y := cfg.canvasHeight - cfg.groundHeight - s.bird.height
              rotation :=
                min (max ((s.bird.velocity + cfg.gravity * speedMod) * 3) (-30)) 90 } }) ∧
    (s.bird.y + (s.bird.velocity + cfg.gravity * speedMod) * speedMod < 0 ∧
        ¬(s.bird.y + (s.bird.velocity + cfg.gravity * speedMod) * speedMod + s.bird.height >
          cfg.canvasHeight - cfg.groundHeight) →
      updateBird cfg speedMod s =
        ({ s with bird :=
          { s.bird with
              velocity := 0
              y := 0
              rotation :=
                min (max ((s.bird.velocity + cfg.gravity * speedMod) * 3) (-30)) 90 } }, [])) := by
  by_cases hg : s.bird.y + (s.bird.velocity + cfg.gravity * speedMod) * speedMod +
      s.bird.height > cfg.canvasHeight - cfg.groundHeight
  · rw [updateBird_eq_ground cfg speedMod s h hg]
    rw [handleCollision_fst_bird]
    refine ⟨?_, ?_, fun _ => rfl, fun hcc => absurd hg hcc.2⟩
    · simp only
      linarith
    · simp only
      linarith
  · by_cases hc : s.bird.y + (s.bird.velocity + cfg.gravity * speedMod) * speedMod < 0
    · rw [updateBird_eq_ceiling cfg speedMod s hg hc]
      refine ⟨?_, ?_, fun hgc => absurd hgc hg, fun _ => rfl⟩
      · simp only
        linarith
      · simp only
        linarith
    · rw [updateBird_eq_plain cfg speedMod s hg hc]
      push_neg at hg hc
      refine ⟨?_, ?_, fun hgc => absurd hgc (not_lt.2 hg),
        fun hcc => absurd hcc.1 (not_lt.2 hc)⟩
      · simp only
        linarith
      · simp only
        linarith

theorem updateBird_y_within_bounds_witness :
    0 ≤ (updateBird DEFAULT_CONFIG 1 (createInitialState GameMode.original)).1.bird.y ∧
    (updateBird DEFAULT_CONFIG 1 (createInitialState GameMode.original)).1.bird.y ≤ 496 := by
  have h := updateBird_y_within_bounds DEFAULT_CONFIG 1
    (createInitialState GameMode.original)
    (by norm_num [createInitialState, BIRD_CONFIG, DEFAULT_CONFIG])
  refine ⟨h.1, ?_⟩
  have h2 := h.2.1
  norm_num [createInitialState, BIRD_CONFIG, DEFAULT_CONFIG] at h2
  exact h2

/-- C5: collecting a shield only sets `hasShield` (no timed entry);
collecting slowmo/double replaces any same-type entry by one expiring at
`now + 5000`; the per-tick expiry filter and both collection branches
preserve the invariant that `activePowerUps` holds at most one entry per
type and never a shield entry. -/
theorem collectPowerUp_no_stacking (now : ℚ) (pu : PowerUp) (s : GameState) :
    (pu.type = PowerUpType.shield →
      collectPowerUp now pu s =
        ({ pu with collected := true }, { s with hasShield := true })) ∧
    (pu.type ≠ PowerUpType.shield →
      collectPowerUp now pu s =
        ({ pu with collected := true },
         { s with activePowerUps :=
            (s.activePowerUps.filter (fun p => decide (p.type ≠ pu.type))) ++
              [{ type := pu.type, endTime := now + 5000 }] })) ∧
    (powerUpsOK s.activePowerUps →
      powerUpsOK (collectPowerUp now pu s).2.activePowerUps ∧
      powerUpsOK (updatePowerUps now s).activePowerUps) := by
  refine ⟨fun hsh => by simp [collectPowerUp, hsh], fun hns => by simp [collectPowerUp, hns], ?_⟩
  intro hok
  constructor
  · by_cases hsh : pu.type = PowerUpType.shield
    · simpa [collectPowerUp, hsh] using hok
    · simp only [collectPowerUp, if_neg hsh]
      constructor
      · intro p hp
        rcases List.mem_append.1 hp with hmem | hmem
        · exact hok.1 p (List.mem_of_mem_filter hmem)
        · simp only [List.mem_singleton] at hmem
          subst hmem
          exact hsh
      · rw [List.pairwise_append]
        refine ⟨hok.2.sublist (List.filter_sublist _), by simp, ?_⟩
        intro a ha b hb
        simp only [List.mem_singleton] at hb
        subst hb
        have := List.of_mem_filter ha
        simpa using this
  · constructor
    · intro p hp
      exact hok.1 p (List.mem_of_mem_filter hp)
    · exact hok.2.sublist (List.filter_sublist _)

theorem collectPowerUp_no_stacking_witness :
    (collectPowerUp 1000
        { type := PowerUpType.shield, x := 0, y := 0, width := 30, height := 30,
          collected := false }
        (createInitialState GameMode.modified) =
      ({ type := PowerUpType.shield, x := 0, y := 0, width := 30, height := 30,
          collected := true },
       { createInitialState GameMode.modified with hasShield := true })) ∧
    powerUpsOK (collectPowerUp 1000
      { type := PowerUpType.double, x := 0, y := 0, width := 30, height := 30,
        collected := false }
      (createInitialState GameMode.modified)).2.activePowerUps := by
  constructor
  · exact (collectPowerUp_no_stacking 1000
      { type := PowerUpType.shield, x := 0, y := 0, width := 30, height := 30,
        collected := false }
      (createInitialState GameMode.modified)).1 rfl
  · exact ((collectPowerUp_no_stacking 1000
      { type := PowerUpType.double, x := 0, y := 0, width := 30, height := 30,
        collected := false }
      (createInitialState GameMode.modified)).2.2
      (by simp [powerUpsOK, createInitialState])).1

/-- C6: for every random draw in `[0,1)` the spawned pipe has
`x = canvasWidth`, `bottomY = topHeight + pipeGap`, and `topHeight` in
`[minHeight, canvasHeight − groundHeight − pipeGap − minHeight]` with
`minHeight = 50`, so both segments stay inside the playfield above the
ground. -/
theorem spawnedPipe_within_playfield (cfg : GameConfig) (gameMode : GameMode)
    (r rPow rType : ℚ) (h0 : 0 ≤ r) (h1 : r < 1)
    (hcfg : (50:ℚ) ≤ cfg.canvasHeight - cfg.groundHeight - cfg.pipeGap - 50) :
    (spawnedPipe cfg gameMode r rPow rType).x = cfg.canvasWidth ∧
    (spawnedPipe cfg gameMode r rPow rType).bottomY =
      (spawnedPipe cfg gameMode r rPow rType).topHeight + cfg.pipeGap ∧
    (50:ℚ) ≤ (spawnedPipe cfg gameMode r rPow rType).topHeight ∧
    (spawnedPipe cfg gameMode r rPow rType).topHeight ≤
      cfg.canvasHeight - cfg.groundHeight - cfg.pipeGap - 50 ∧
    (spawnedPipe cfg gameMode r rPow rType).bottomY ≤
      cfg.canvasHeight - cfg.groundHeight - 50 ∧
    (spawnedPipe cfg gameMode r rPow rType).width = cfg.pipeWidth ∧
    (spawnedPipe cfg gameMode r rPow rType).passed = false := by
  have hd : (0:ℚ) ≤ cfg.canvasHeight - cfg.groundHeight - cfg.pipeGap - 50 - 50 := by
    linarith
  have hprod0 : (0:ℚ) ≤ r * (cfg.canvasHeight - cfg.groundHeight - cfg.pipeGap - 50 - 50) :=
    mul_nonneg h0 hd
  have hprod1 : r * (cfg.canvasHeight - cfg.groundHeight - cfg.pipeGap - 50 - 50) ≤
      cfg.canvasHeight - cfg.groundHeight - cfg.pipeGap - 50 - 50 :=
    mul_le_of_le_one_left hd h1.le
  refine ⟨rfl, rfl, ?_, ?_, ?_, rfl, rfl⟩ <;>
    simp only [spawnedPipe] <;> linarith

theorem spawnedPipe_within_playfield_witness :
    (spawnedPipe DEFAULT_CONFIG GameMode.original (1/2) 0 0).x =
      DEFAULT_CONFIG.canvasWidth ∧
    (50:ℚ) ≤ (spawnedPipe DEFAULT_CONFIG GameMode.original (1/2) 0 0).topHeight ∧
    (spawnedPipe DEFAULT_CONFIG GameMode.original (1/2) 0 0).topHeight ≤
      DEFAULT_CONFIG.canvasHeight - DEFAULT_CONFIG.groundHeight -
        DEFAULT_CONFIG.pipeGap - 50 := by
  have h := spawnedPipe_within_playfield DEFAULT_CONFIG GameMode.original (1/2) 0 0
    (by norm_num) (by norm_num) (by norm_num [DEFAULT_CONFIG])
  exact ⟨h.1, h.2.2.1, h.2.2.2.1⟩

/-- C7: once `gameOver` holds, a tick returns the state unchanged with no
callback, any number of further ticks leave it unchanged, and the loop
does not reschedule itself. -/
theorem gameOver_freezes_state (cfg : GameConfig) (now r rPow rType : ℚ)
    (s : GameState) (h : s.gameOver = true) :
    update cfg now r rPow rType s = (s, []) ∧
    (∀ (env : ℕ → ℚ × ℚ × ℚ × ℚ) (n : ℕ), updateIter cfg env n s = s) ∧
    gameLoopReschedules s = false := by
  have hu : ∀ now1 r1 rPow1 rType1, update cfg now1 r1 rPow1 rType1 s = (s, []) := by
    intro now1 r1 rPow1 rType1
    unfold update
    rw [if_pos (Or.inr h)]
  refine ⟨hu now r rPow rType, ?_, by simp [gameLoopReschedules, h]⟩
  intro env n
  induction n with
  | zero => rfl
  | succ m ih =>
    show updateIter cfg env m (update cfg _ _ _ _ s).1 = s
    rw [hu]
    exact ih

theorem gameOver_freezes_state_witness :
    update DEFAULT_CONFIG 0 0 0 0
        { createInitialState GameMode.original with gameOver := true } =
      ({ createInitialState GameMode.original with gameOver := true }, []) ∧
    gameLoopReschedules
        { createInitialState GameMode.original with gameOver := true } = false := by
  have h := gameOver_freezes_state DEFAULT_CONFIG 0 0 0 0
    { createInitialState GameMode.original with gameOver := true } rfl
  exact ⟨h.1, h.2.2⟩

/-- C8 counterexample: the pickup test is not point containment of the
bird in the pickup square — here it fires although neither the bird's
position nor its center lies in the square. -/
theorem checkPowerUpCollision_not_point_containment :
    checkPowerUpCollision
        { x := 47, y := 250, width := 34, height := 24, velocity := 0, rotation := 0 }
        { type := PowerUpType.shield, x := 80, y := 250, width := 30, height := 30,
          collected := false } = true ∧
    ¬ pointInRect 47 250
        (powerUpRect
          { type := PowerUpType.shield, x := 80, y := 250, width := 30, height := 30,
            collected := false }) ∧
    ¬ pointInRect (47 + 34 / 2) (250 + 24 / 2)
        (powerUpRect
          { type := PowerUpType.shield, x := 80, y := 250, width := 30, height := 30,
            collected := false }) := by
  refine ⟨?_, ?_, ?_⟩
  · norm_num [checkPowerUpCollision]
  · norm_num [pointInRect, powerUpRect]
  · norm_num [pointInRect, powerUpRect]

theorem pipeCollision_powerUp_irrelevant (bird : Bird) (pipe : Pipe)
    (v : Option PowerUp) :
    pipeCollision bird { pipe with powerUp := v } = pipeCollision bird pipe := rfl

/-- C8 amended: per pipe the sweep tests the power-up pickup first — as an
AABB overlap of the full bird rectangle with the 30×30 pickup square, not
point containment — and only then the 4px-deflated bird hitbox against the
top- and bottom-pipe rectangles by AABB overlap (for a bird inside the
vertical playfield); collecting happens before the pipe test, so a shield
picked up and a pipe hit on the same pipe in the same tick leave the game
running. -/
theorem checkCollisions_powerup_first_then_aabb :
    (∀ (bird : Bird) (pu : PowerUp),
      checkPowerUpCollision bird pu = true ↔
        rectsOverlap (birdRect bird) (powerUpRect pu)) ∧
    (∀ (cfg : GameConfig) (bird : Bird) (pipe : Pipe),
      0 < bird.y + bird.height - 4 →
      bird.y + 4 < cfg.canvasHeight - cfg.groundHeight →
      (pipeCollision bird pipe = true ↔
        rectsOverlap (birdHitbox bird) (topPipeRect pipe) ∨
        rectsOverlap (birdHitbox bird) (bottomPipeRect cfg pipe))) ∧
    (∀ (now : ℚ) (bird : Bird) (pipe : Pipe) (pu : PowerUp) (rest : List Pipe)
        (s : GameState),
      pipe.powerUp = some pu → pu.collected = false →
      pu.type = PowerUpType.shield →
      checkPowerUpCollision bird pu = true → pipeCollision bird pipe = true →
      (checkCollisionsAux now bird (pipe :: rest) s).2.1.gameOver = s.gameOver ∧
      (checkCollisionsAux now bird (pipe :: rest) s).2.1.hasShield = false ∧
      (checkCollisionsAux now bird (pipe :: rest) s).2.2 = []) := by
  refine ⟨?_, ?_, ?_⟩
  · intro bird pu
    simp only [checkPowerUpCollision, decide_eq_true_eq, rectsOverlap, birdRect, powerUpRect]
  · intro cfg bird pipe h1 h2
    simp only [pipeCollision, decide_eq_true_eq, rectsOverlap, birdHitbox,
      topPipeRect, bottomPipeRect]
    constructor
    · rintro (⟨hA, hB, hC⟩ | ⟨hA, hB, hD⟩)
      · exact Or.inl ⟨hA, hB, by linarith, by linarith⟩
      · exact Or.inr ⟨hA, hB, by linarith, by linarith⟩
    · rintro (⟨hA, hB, hC, hE⟩ | ⟨hA, hB, hC2, hD⟩)
      · exact Or.inl ⟨hA, hB, by linarith⟩
      · exact Or.inr ⟨hA, hB, by linarith⟩
  · intro now bird pipe pu rest s hpu hcol hsh hhit hpc
    have hcollect : collectPowerUp now pu s =
        ({ pu with collected := true }, { s with hasShield := true }) := by
      simp [collectPowerUp, hsh]
    have hstep : checkCollisionsAux now bird (pipe :: rest) s =
        ({ pipe with powerUp := some { pu with collected := true } } :: rest,
          (handleCollision { s with hasShield := true }).1,
          (handleCollision { s with hasShield := true }).2) := by
      simp only [checkCollisionsAux, hpu, hcol, hhit, and_self, if_pos, hcollect]
      rw [if_pos]
      rw [pipeCollision_powerUp_irrelevant]
      exact hpc
    rw [hstep]
    simp [handleCollision]

theorem checkCollisions_powerup_first_then_aabb_witness :
    (pipeCollision
        { x := 80, y := 250, width := 34, height := 24, velocity := 0, rotation := 0 }
        { x := 70, topHeight := 300, bottomY := 450, width := 60, passed := false } = true ↔
      rectsOverlap
        (birdHitbox
          { x := 80, y := 250, width := 34, height := 24, velocity := 0, rotation := 0 })
        (topPipeRect
          { x := 70, topHeight := 300, bottomY := 450, width := 60, passed := false }) ∨
      rectsOverlap
        (birdHitbox
          { x := 80, y := 250, width := 34, height := 24, velocity := 0, rotation := 0 })
        (bottomPipeRect DEFAULT_CONFIG
          { x := 70, topHeight := 300, bottomY := 450, width := 60, passed := false })) ∧
    (checkCollisionsAux 0
        { x := 80, y := 250, width := 34, height := 24, velocity := 0, rotation := 0 }
        [{ x := 70, topHeight := 300, bottomY := 450, width := 60, passed := false,
            powerUp := some
              { type := PowerUpType.shield, x := 90, y := 255, width := 30, height := 30,
                collected := false } }]
        (createInitialState GameMode.modified)).2.1.gameOver =
      (createInitialState GameMode.modified).gameOver := by
  constructor
  · exact (checkCollisions_powerup_first_then_aabb).2.1 DEFAULT_CONFIG
      { x := 80, y := 250, width := 34, height := 24, velocity := 0, rotation := 0 }
      { x := 70, topHeight := 300, bottomY := 450, width := 60, passed := false }
      (by norm_num) (by norm_num [DEFAULT_CONFIG])
  · exact ((checkCollisions_powerup_first_then_aabb).2.2 0
      { x := 80, y := 250, width := 34, height := 24, velocity := 0, rotation := 0 }
      { x := 70, topHeight := 300, bottomY := 450, width := 60, passed := false,
        powerUp := some
          { type := PowerUpType.shield, x := 90, y := 255, width := 30, height := 30,
            collected := false } }
      { type := PowerUpType.shield, x := 90, y := 255, width := 30, height := 30,
        collected := false }
      [] (createInitialState GameMode.modified) rfl rfl rfl
      (by norm_num [checkPowerUpCollision]) (by norm_num [pipeCollision])).1

/-- C10: in a single tick the score check still runs after a fatal
collision: starting from `preTickState` (game running, score 0, high
score 0), one tick ends the game, snapshots `highScore = 0`, then awards
the passed pipe's point, leaving a gameover state with
`score = 1 > highScore = 0` and firing the game-over callback before the
score-changed callback. -/
theorem update_awards_score_after_fatal_collision :
    preTickState.gameOver = false ∧
    preTickState.isPlaying = true ∧
    (update DEFAULT_CONFIG 0 0 0 0 preTickState).1.gameOver = true ∧
    (update DEFAULT_CONFIG 0 0 0 0 preTickState).1.highScore = 0 ∧
    (update DEFAULT_CONFIG 0 0 0 0 preTickState).1.score = 1 ∧
    (update DEFAULT_CONFIG 0 0 0 0 preTickState).1.highScore <
      (update DEFAULT_CONFIG 0 0 0 0 preTickState).1.score ∧
    (update DEFAULT_CONFIG 0 0 0 0 preTickState).2 =
      [GameEvent.gameOverSignal 0, GameEvent.scoreChange 1] := by
  norm_num [update, preTickState, createInitialState, BIRD_CONFIG, DEFAULT_CONFIG,
    updatePowerUps, getSpeedModifier, updateBird, updatePipes, checkCollisions,
    checkCollisionsAux, checkScore, checkScoreAux, handleCollision, collectPowerUp,
    checkPowerUpCollision, pipeCollision, getScoreMultiplier, scoreMultiplierOfList,
    spawnPipe, spawnedPipe]

/-- C9 counterexample: a valid request whose `player_name` is "a " (two
characters, already within 20) is accepted, but the stored name is the
whitespace-trimmed "a" — not "player_name truncated to 20 characters",
which would be "a " itself. -/
theorem postScores_trims_player_name :
    postScores
        { player_name := JVal.str "a ".toList
          score := JVal.num (JSNumber.finite 12)
          game_mode := JVal.str "original".toList } =
      PostResult.accept
        { player_name := "a".toList
          score := JSNumber.finite 12
          game_mode := "original".toList } ∧
    ("a ".toList).take 20 = "a ".toList ∧
    "a".toList ≠ "a ".toList := by
  refine ⟨by decide, by decide, by decide⟩

/-- C9 amended: the endpoint rejects with 400 and an error body any
request whose score is not of JSON number type, is a finite number
outside `[0, 9999]`, or is an infinity (the overflow parse results), and
any request whose `game_mode` is invalid or not a string; an accepted
request stores `player_name` truncated to 20 characters and then
whitespace-trimmed, with "Anonymous" substituted when the field is
absent, null or blank (or when the trimmed truncation is empty), and the
created record is returned. -/
theorem postScores_validation (req : ScoreRequest) :
    ((∀ n : JSNumber, req.score ≠ JVal.num n) →
      postScores req = PostResult.reject 400 "Invalid score") ∧
    (∀ q : ℚ, req.score = JVal.num (JSNumber.finite q) → (q < 0 ∨ 9999 < q) →
      postScores req = PostResult.reject 400 "Invalid score") ∧
    ((req.score = JVal.num JSNumber.posInf ∨ req.score = JVal.num JSNumber.negInf) →
      postScores req = PostResult.reject 400 "Invalid score") ∧
    (∀ n : JSNumber, req.score = JVal.num n →
      jsLt n (JSNumber.finite 0) = false → jsLt (JSNumber.finite 9999) n = false →
      (¬ ∃ m, req.game_mode = JVal.str m ∧ m ∈ validModes) →
      postScores req = PostResult.reject 400 "Invalid game mode") ∧
    (∀ (n : JSNumber) (m : List Char), req.score = JVal.num n →
      jsLt n (JSNumber.finite 0) = false → jsLt (JSNumber.finite 9999) n = false →
      req.game_mode = JVal.str m → m ∈ validModes →
      (isFalsy req.player_name = true →
        postScores req =
          PostResult.accept { player_name := anonymous, score := n, game_mode := m }) ∧
      (∀ pname : List Char, req.player_name = JVal.str pname → pname ≠ [] →
        postScores req =
          PostResult.accept
            { player_name :=
                if jsTrim (pname.take 20) = [] then anonymous else jsTrim (pname.take 20)
              score := n
              game_mode := m })) := by
  obtain ⟨pn, sc, gm⟩ := req
  refine ⟨?_, ?_, ?_, ?_, ?_⟩
  · intro h
    cases sc with
    | num n => exact absurd rfl (h n)
    | str s => rfl
    | boolean b => rfl
    | jnull => rfl
    | missing => rfl
  · intro q hq hout
    cases hq
    have : jsLt (JSNumber.finite q) (JSNumber.finite 0) = true ∨
        jsLt (JSNumber.finite 9999) (JSNumber.finite q) = true := by
      rcases hout with h | h
      · exact Or.inl (by simp [jsLt, h])
      · exact Or.inr (by simp [jsLt, h])
    rcases this with h | h <;> simp [postScores, h]
  · intro hinf
    rcases hinf with h | h <;> cases h <;> simp [postScores, jsLt]
  · intro n hn h0 h9 hmode
    cases hn
    simp only [postScores, h0, h9, Bool.or_self, Bool.false_eq_true, if_false]
    cases gm with
    | str m =>
      have hm : m ∉ validModes := fun hmem => hmode ⟨m, rfl, hmem⟩
      simp [hm]
    | num n2 => rfl
    | boolean b => rfl
    | jnull => rfl
    | missing => rfl
  · intro n m hn h0 h9 hgm hm
    cases hn
    cases hgm
    constructor
    · intro hf
      have htrim : jsTrim (List.take 20 anonymous) = anonymous := by decide
      simp [postScores, h0, h9, hm, nameOf, hf, htrim]
    · intro pname hpn hne
      cases hpn
      have hfalsy : isFalsy (JVal.str pname) = false := by
        simp [isFalsy, hne]
      simp [postScores, h0, h9, hm, nameOf, hfalsy]

theorem postScores_validation_witness :
    postScores
        { player_name := JVal.missing
          score := JVal.num (JSNumber.finite 12)
          game_mode := JVal.str "modified".toList } =
      PostResult.accept
        { player_name := anonymous
          score := JSNumber.finite 12
          game_mode := "modified".toList } ∧
    postScores
        { player_name := JVal.missing
          score := JVal.num (JSNumber.finite 10000)
          game_mode := JVal.str "modified".toList } =
      PostResult.reject 400 "Invalid score" ∧
    postScores
        { player_name := JVal.missing
          score := JVal.num (JSNumber.finite 12)
          game_mode := JVal.str "classic".toList } =
      PostResult.reject 400 "Invalid game mode" := by
  refine ⟨?_, ?_, ?_⟩
  · exact ((postScores_validation
      { player_name := JVal.missing
        score := JVal.num (JSNumber.finite 12)
        game_mode := JVal.str "modified".toList }).2.2.2.2
      (JSNumber.finite 12) "modified".toList rfl (by decide) (by decide) rfl
      (by decide)).1 rfl
  · exact (postScores_validation
      { player_name := JVal.missing
        score := JVal.num (JSNumber.finite 10000)
        game_mode := JVal.str "modified".toList }).2.1
      10000 rfl (Or.inr (by norm_num))
  · exact (postScores_validation
      { player_name := JVal.missing
        score := JVal.num (JSNumber.finite 12)
        game_mode := JVal.str "classic".toList }).2.2.2.1
      (JSNumber.finite 12) rfl (by decide) (by decide)
      (by rintro ⟨m, hm, hmem⟩; cases hm; revert hmem; decide)

end Flappy2
